import Mathlib

/-!
Verification of the Revenue Forecast & Retention/Churn Estimation Engine
(`modules/revenue_forecast/db.py` and `modules/revenue_forecast/router.py`)
against its natural-language specification.

The Python code is shallowly embedded: money and probabilities become `ℚ`,
millisecond epoch instants become `Int`, nullable columns become `Option`,
Python dicts become insertion-ordered association lists.  Python's `round`
(round-half-to-even) and `int` (truncation toward zero) are modelled
explicitly.
-/

namespace RevenueForecast

/-- Python `round` on a rational: round half to even (banker's rounding),
as CPython does for `round(float)`. -/
def pyRound (q : ℚ) : Int :=
  let f := ⌊q⌋
  let frac := q - f
  if frac < 1/2 then f
  else if 1/2 < frac then f + 1
  else if f % 2 = 0 then f else f + 1

/-- Python `int()` on a rational: truncation toward zero. -/
def pyInt (q : ℚ) : Int :=
  if 0 ≤ q then ⌊q⌋ else ⌈q⌉


/-- Python `max` on two rationals (`max(a, b)` returns `b` only when `a < b`). -/
def pyMax (a b : ℚ) : ℚ := if a < b then b else a

/-- Python `min` on two rationals (`min(a, b)` returns `b` only when `b < a`). -/
def pyMin (a b : ℚ) : ℚ := if b < a then b else a



/-- First-match lookup in an insertion-ordered association list
(the semantics of Python `dict.get`; dict keys are unique, so first match
is the only match). -/
def dlookup {α : Type} : List (String × α) → String → Option α
  | [], _ => none
  | (k, v) :: rest, key => if k = key then some v else dlookup rest key


/-- One Python-dict mutation `m[k] = ...` of an insertion-ordered dict:
update the entry in place when the key exists (its value recomputed from
the stored one), insert at the end otherwise. -/
def upsert {α : Type} (m : List (String × α)) (k : String) (vNew : α) (vOld : α → α) :
    List (String × α) :=
  match dlookup m k with
  | some old => m.map (fun x => if x.1 = k then (k, vOld old) else x)
  | none => m ++ [(k, vNew)]

/-! ## Plan bucket classifier (`_bucket_plan`, db.py lines 232-242) -/

/-- Duration-based branch of `_bucket_plan`:
`months = round((duration_days or 0) / 30) if duration_days else 0`
then `1 → "1m"`, `3 → "3m"`, `10..13 → "12m"`, else `"other"`. -/
def durationBucket (duration_days : Option Int) : String :=
  let months : Int :=
    match duration_days with
    | none => 0
    | some d => if d = 0 then 0 else pyRound ((d : ℚ) / 30)
  if months = 1 then "1m"
  else if months = 3 then "3m"
  else if 10 ≤ months ∧ months ≤ 13 then "12m"
  else "other"

/-- The classifier `_bucket_plan(group_code, duration_days)`: explicit `group_code` in
`("1m", "3m", "12m")` is returned verbatim, otherwise the bucket is
inferred from `duration_days`. -/
def bucketPlan (group_code : Option String) (duration_days : Option Int) : String :=
  if group_code = some "1m" ∨ group_code = some "3m" ∨ group_code = some "12m" then
    group_code.getD ""
  else
    durationBucket duration_days

/-- Modelled from the spec (§4.2), for the refinement side of claim C7:
if `group_code` is exactly one of `{1m, 3m, 12m}` return it verbatim,
otherwise `months = round(duration_days / 30)` maps `1→1m`, `3→3m`,
`10..13→12m`, and everything else (including missing durations) to `other`. -/
def specClassify (group_code : Option String) (duration_days : Option Int) : String :=
  if group_code = some "1m" ∨ group_code = some "3m" ∨ group_code = some "12m" then
    group_code.getD ""
  else
    match duration_days with
    | none => "other"
    | some d =>
      let months := pyRound ((d : ℚ) / 30)
      if months = 1 then "1m"
      else if months = 3 then "3m"
      else if 10 ≤ months ∧ months ≤ 13 then "12m"
      else "other"

/-- The bucket `CASE` of the historical-cohort SQL in
`estimate_auto_renewal_probs` (db.py lines 69-79).  The `plans` CTE first
computes `COALESCE(t.duration_days, 30)`, then the `CASE` tests
`BETWEEN 25 AND 40 → '1m'`, `BETWEEN 80 AND 100 → '3m'`,
`BETWEEN 360 AND 390 → '12m'`, `ELSE 'other'`. -/
def sqlBucket (duration_days : Option Int) : String :=
  let d := duration_days.getD 30
  if 25 ≤ d ∧ d ≤ 40 then "1m"
  else if 80 ≤ d ∧ d ≤ 100 then "3m"
  else if 360 ≤ d ∧ d ≤ 390 then "12m"
  else "other"

/-! ## Renewal probability estimator (db.py lines 100-115) -/

/-- Per-bucket probability from aggregated totals `(C, R)`:
`p = (R + 1) / (C + 2)` when `C > 0`, else `1.0`; the result is clamped by
`max(0.0, min(1.0, p))`. -/
def smoothProb (C R : Nat) : ℚ :=
  let p : ℚ := if 0 < C then ((R : ℚ) + 1) / ((C : ℚ) + 2) else 1
  pyMax 0 (pyMin 1 p)

/-- Initial totals dict: `{"1m": (0,0), "3m": (0,0), "12m": (0,0), "other": (0,0)}`. -/
def initTotals : List (String × Nat × Nat) :=
  [("1m", 0, 0), ("3m", 0, 0), ("12m", 0, 0), ("other", 0, 0)]

/-- One iteration of the aggregation loop over SQL rows `(bucket, cohort, renewed)`:
missing buckets are inserted, existing buckets accumulate componentwise. -/
def addRow (totals : List (String × Nat × Nat)) (row : String × Nat × Nat) :
    List (String × Nat × Nat) :=
  upsert totals row.1 row.2 (fun CR => (CR.1 + row.2.1, CR.2 + row.2.2))

/-- Aggregated `{bucket: (cohort, renewed)}` totals over all SQL rows. -/
def aggregateTotals (rows : List (String × Nat × Nat)) : List (String × Nat × Nat) :=
  rows.foldl addRow initTotals

/-- The pure tail of `estimate_auto_renewal_probs`: aggregate the SQL rows
into per-bucket totals, then map each bucket to its smoothed probability. -/
def estimateAutoRenewalProbs (rows : List (String × Nat × Nat)) : List (String × ℚ) :=
  (aggregateTotals rows).map (fun e => (e.1, smoothProb e.2.1 e.2.2))

/-! ## Relational store model (§6: `Tariff`, `Key`, `Payment` rows) -/

/-- A `tariffs` row: `id, name, group_code, price_rub, duration_days`. -/
structure Plan where
  id : Nat
  name : String
  group_code : Option String
  price_rub : Option ℚ
  duration_days : Option Int
deriving DecidableEq

/-- A `keys` row: `tg_id, tariff_id, expiry_time` (ms epoch), `is_frozen`,
`created_at` (ms epoch). -/
structure Key where
  tg_id : Int
  tariff_id : Nat
  expiry_time : Int
  is_frozen : Bool
  created_at : Int
deriving DecidableEq

/-- A `payments` row: `tg_id, amount, status, created_at` (instants are
modelled on the same ms scale as key expiries). -/
structure Payment where
  tg_id : Int
  amount : ℚ
  status : String
  created_at : Int
deriving DecidableEq

/-- The module `settings` switches consumed by the queries. -/
structure Flags where
  SKIP_FROZEN : Bool
  EXCLUDE_TRIALS : Bool
deriving DecidableEq

/-- The read-only relational store. -/
structure Store where
  plans : List Plan
  keys : List Key
  payments : List Payment
deriving DecidableEq

/-- Inner join of `keys` with `tariffs` on `tariff_id = id`
(one joined row per matching pair, in key-major order). -/
def joinKeysPlans (st : Store) : List (Key × Plan) :=
  st.keys.flatMap (fun k =>
    st.plans.filterMap (fun p => if p.id = k.tariff_id then some (k, p) else none))

/-- The `EXCLUDE_TRIALS` predicate `NOT (group_code = 'trial' OR
COALESCE(price_rub, 0) = 0)` under SQL three-valued logic: a row with a
NULL `group_code` makes the comparison UNKNOWN, so the row is not kept
unless the other disjunct decides it; `NOT UNKNOWN` is UNKNOWN, which a
`WHERE` clause drops. -/
def keepNonTrial (p : Plan) : Bool :=
  match p.group_code with
  | none => false
  | some g => ¬(g = "trial") ∧ ¬(p.price_rub.getD 0 = 0)

/-- Key-level row filters shared by every cohort query: frozen keys are
dropped when `SKIP_FROZEN`, trial/zero-price plans when `EXCLUDE_TRIALS`. -/
def passesFlags (fl : Flags) (k : Key) (p : Plan) : Bool :=
  (!fl.SKIP_FROZEN || !k.is_frozen) && (!fl.EXCLUDE_TRIALS || keepNonTrial p)

/-! ## Expiring-by-plan snapshots (db.py lines 247-312 and 314-401) -/

/-- One value of the per-plan dicts built by `get_expiring_by_plan` /
`get_baseline_expiring_by_plan`:
`{count, price, period_months, group_code, bucket}`. -/
structure PlanInfo where
  count : Nat
  price : ℚ
  period_months : Option Int
  group_code : Option String
  bucket : String
deriving DecidableEq

/-- The dict value built from one SQL group row
`(id, name, group_code, count, price, duration)`. -/
def infoOfRow (gcode : Option String) (cnt : Nat) (price : Option ℚ)
    (duration : Option Int) : PlanInfo :=
  { count := cnt
    price := price.getD 0
    period_months :=
      match duration with
      | none => none
      | some d => if d = 0 then none else some (pyRound ((d : ℚ) / 30))
    group_code := gcode
    bucket := bucketPlan gcode duration }

/-- A SQL `GROUP BY (id, name, group_code, price, duration)` result row of
the expiring queries, with its key count. -/
structure PlanRow where
  id : Nat
  name : String
  group_code : Option String
  cnt : Nat
  price : Option ℚ
  duration : Option Int
deriving DecidableEq

/-- Grouped rows of a per-plan counting query: for each plan (plan `id`s
are unique, so each plan is one group), count the keys that join to it and
pass the window predicate and the flag filters; inner-join `GROUP BY`
emits no zero-count groups. -/
def groupedRows (st : Store) (fl : Flags) (keyPred : Key → Plan → Bool) : List PlanRow :=
  st.plans.filterMap (fun p =>
    if fl.EXCLUDE_TRIALS && !keepNonTrial p then none
    else
      let cnt := (st.keys.filter (fun k =>
        k.tariff_id = p.id && keyPred k p && (!fl.SKIP_FROZEN || !k.is_frozen))).length
      if cnt = 0 then none
      else some ⟨p.id, p.name, p.group_code, cnt, p.price_rub, p.duration_days⟩)

/-- Python dict assignment `m[k] = v`: replace in place if the key exists,
otherwise append. -/
def dictSet {α : Type} (m : List (String × α)) (k : String) (v : α) :
    List (String × α) :=
  upsert m k v (fun _ => v)

/-- Query `get_expiring_by_plan`: keys whose `expiry_time` lies in
`[start_ms, end_ms)`, grouped per plan and folded into a name-keyed dict
(`data[str(name)] = {...}` overwrites on name collisions). -/
def getExpiringByPlan (st : Store) (startMs endMs : Int) (fl : Flags) :
    List (String × PlanInfo) :=
  (groupedRows st fl (fun k _ => startMs ≤ k.expiry_time && k.expiry_time < endMs)).foldl
    (fun m r => dictSet m r.name (infoOfRow r.group_code r.cnt r.price r.duration)) []

/-- Implied previous-cycle expiry of a key:
`expiry_time − COALESCE(duration_days, 0) * 86400000` (db.py lines 329-335). -/
def prevExpiryMs (k : Key) (p : Plan) : Int :=
  k.expiry_time - (p.duration_days.getD 0) * 86400000

/-- The previous-cycle snapshot of `get_baseline_expiring_by_plan`: rows
whose implied previous-cycle expiry lies in `[start_ms, end_ms)`, folded
into a name-keyed dict where same-name rows add their counts and a truthy
differing price overwrites (db.py lines 374-390). -/
def prevSnapshot (st : Store) (startMs endMs : Int) (fl : Flags) :
    List (String × PlanInfo) :=
  (groupedRows st fl (fun k p =>
      startMs ≤ prevExpiryMs k p && prevExpiryMs k p < endMs)).foldl
    (fun (m : List (String × PlanInfo)) (r : PlanRow) =>
      upsert m r.name (infoOfRow r.group_code r.cnt r.price r.duration)
        (fun e =>
          let price := r.price.getD 0
          { e with
            count := e.count + r.cnt,
            price := if price ≠ 0 ∧ price ≠ e.price then price else e.price })) []

/-- The final value merge of `get_baseline_expiring_by_plan` (db.py lines
392-401): copy-or-combine each source entry into the accumulator; on a
name collision counts add and a truthy source price overwrites. -/
def mergeInto (acc : List (String × PlanInfo)) (src : List (String × PlanInfo)) :
    List (String × PlanInfo) :=
  src.foldl
    (fun (m : List (String × PlanInfo)) (e : String × PlanInfo) =>
      upsert m e.1 e.2
        (fun old =>
          { old with
            count := old.count + e.2.count,
            price := if e.2.price ≠ 0 then e.2.price else old.price })) acc

/-- Query `get_baseline_expiring_by_plan`: merge the current-month expiring
snapshot with the implied-previous-cycle snapshot. -/
def getBaselineExpiringByPlan (st : Store) (startMs endMs : Int) (fl : Flags) :
    List (String × PlanInfo) :=
  mergeInto (mergeInto [] (getExpiringByPlan st startMs endMs fl))
    (prevSnapshot st startMs endMs fl)

/-! ## Forecast compositor (`compute_forecast`, db.py lines 430-460) -/

/-- The dict returned by `get_received`: `{paid, refunds, net}`. -/
structure Received where
  paid : ℚ
  refunds : ℚ
  net : ℚ
deriving DecidableEq

/-- Python `a or b` where `a` is an optional float: `None` and `0.0` are
falsy, so the right operand is taken for both. -/
def pyOrQ (a : Option ℚ) (b : ℚ) : ℚ :=
  match a with
  | some x => if x = 0 then b else x
  | none => b

/-- Probability resolution of `compute_forecast`:
`overrides.get(code) or overrides.get(group_code) or overrides.get(bucket)
or (global_prob if global_prob is not None else 1.0)`. -/
def resolveProb (overrides : List (String × ℚ)) (global_prob : Option ℚ)
    (code : String) (gcode : Option String) (bucket : String) : ℚ :=
  pyOrQ (dlookup overrides code)
    (pyOrQ (gcode.bind (dlookup overrides))
      (pyOrQ (dlookup overrides bucket) (global_prob.getD 1)))

/-- One `by_plans` entry of the forecast result: the input info plus
`expected` and `prob`. -/
structure ForecastEntry where
  info : PlanInfo
  expected : ℚ
  prob : ℚ
deriving DecidableEq

/-- The dict returned by `compute_forecast`:
`{forecast, received, to_earn, by_plans}`. -/
structure ForecastResult where
  forecast : ℚ
  received : ℚ
  to_earn : ℚ
  by_plans : List (String × ForecastEntry)
deriving DecidableEq

/-- Compositor `compute_forecast(expiring, received_dict, probs, global_prob)`:
per-plan `expected = price * count * prob` accumulated into `forecast`,
`to_earn = max(0.0, forecast - received)` (a `probs=None` argument and an
empty dict coincide after `overrides = probs or {}`, so overrides are
passed as a plain association list). -/
def computeForecast (expiring : List (String × PlanInfo)) (received_dict : Received)
    (probs : List (String × ℚ)) (global_prob : Option ℚ) : ForecastResult :=
  let r := expiring.foldl
    (fun (acc : ℚ × List (String × ForecastEntry)) x =>
      let prob := resolveProb probs global_prob x.1 x.2.group_code x.2.bucket
      let expected := x.2.price * (x.2.count : ℚ) * prob
      (acc.1 + expected, acc.2 ++ [(x.1, ⟨x.2, expected, prob⟩)]))
    ((0 : ℚ), ([] : List (String × ForecastEntry)))
  { forecast := r.1
    received := received_dict.net
    to_earn := pyMax 0 (r.1 - received_dict.net)
    by_plans := r.2 }

/-! ## Completion percentage and plan gap (router.py lines 59-88) -/

/-- Field `plan_completion_pct` as computed in `_render_summary`: `None`
("unknown") when the baseline `plan_sum` is not positive, otherwise the
mode-dependent ratio; only the `plan_vs_forecast` branch clamps. -/
def planCompletionPct (mode : String) (planSum forecast received recognized : ℚ) :
    Option ℚ :=
  if 0 < planSum then
    if mode = "plan_vs_forecast" then
      some (pyMax 0 (pyMin 100 ((planSum - forecast) / planSum * 100)))
    else if mode = "accrual" then
      some (recognized / planSum * 100)
    else
      some (received / planSum * 100)
  else none

/-- Field `plan_gap` as computed in `_render_summary`: `forecast` in
`plan_vs_forecast` mode, `max(0.0, plan_sum - recognized)` in `accrual`
mode, `max(0.0, plan_sum - received)` otherwise, and `0.0` when the
baseline is not positive. -/
def planGapFigure (mode : String) (planSum forecast received recognized : ℚ) : ℚ :=
  if 0 < planSum then
    if mode = "plan_vs_forecast" then forecast
    else if mode = "accrual" then pyMax 0 (planSum - recognized)
    else pyMax 0 (planSum - received)
  else 0

/-! ## Retention/churn analyzer (`_calc_retention_churn`, db.py lines 572-730) -/

/-- One member of `cand_rows`: the selected columns
`(expiry_ms, gcode, days, price, tg_id)`; a fallback-reconstructed
candidate has `expiry_ms = None`. -/
structure CandRow where
  expiry_ms : Option Int
  gcode : Option String
  days : Option Int
  price : Option ℚ
  tg_id : Int
deriving DecidableEq

/-- The real-subscription candidate query: joined key/plan rows whose
implied previous-cycle expiry lies in `[start_ms, end_ms)`, subject to the
`SKIP_FROZEN` / `EXCLUDE_TRIALS` filters. -/
def realCandidates (st : Store) (startMs endMs : Int) (fl : Flags) : List CandRow :=
  (joinKeysPlans st).filterMap (fun kp =>
    if (startMs ≤ prevExpiryMs kp.1 kp.2 && prevExpiryMs kp.1 kp.2 < endMs)
        && passesFlags fl kp.1 kp.2
    then some ⟨some kp.1.expiry_time, kp.2.group_code, kp.2.duration_days,
              kp.2.price_rub, kp.1.tg_id⟩
    else none)

/-- Accounts with a successful payment inside `[start, end)`
(`paid_in_month_tg`). -/
def paidInMonth (st : Store) (startMs endMs : Int) : List Int :=
  (st.payments.filter (fun p =>
    startMs ≤ p.created_at && p.created_at < endMs && p.status = "success")).map
    (fun p => p.tg_id)

/-- The `price_to_plan` lookup: `setdefault(int(price_rub or 0),
(int(duration_days or 30), group_code))`, so the first plan row wins for
each integer price key. -/
def priceToPlan (plans : List Plan) : List (Int × Int × Option String) :=
  plans.foldl
    (fun (m : List (Int × Int × Option String)) p =>
      let key := pyInt (p.price_rub.getD 0)
      let dd : Int := match p.duration_days with
        | none => 30
        | some d => if d = 0 then 30 else d
      if (m.find? (fun e => e.1 = key)).isSome then m
      else m ++ [(key, dd, p.group_code)]) []

/-- Per-account latest successful payment strictly before `dt_end`
(`row_number() over (partition by tg_id order by created_at desc) = 1`);
an earlier-seen row is kept on `created_at` ties. -/
def lastPayments (payments : List Payment) (endMs : Int) :
    List (Int × ℚ × Int) :=
  (payments.filter (fun p => p.created_at < endMs && p.status = "success")).foldl
    (fun (m : List (Int × ℚ × Int)) p =>
      match m.find? (fun e => e.1 = p.tg_id) with
      | none => m ++ [(p.tg_id, p.amount, p.created_at)]
      | some e =>
        if e.2.2 < p.created_at then
          m.map (fun x => if x.1 = p.tg_id then (p.tg_id, p.amount, p.created_at) else x)
        else m) []

/-- The fallback reconstruction loop (db.py lines 661-672): for each
account's last successful payment, skip accounts already among the real
candidates, match `int(round(amount))` against `price_to_plan`, and admit
a synthetic candidate when the reconstructed previous-cycle expiry
`paid_at + timedelta(days=dd or 30)` lies in `[dt_start, dt_end)`. -/
def fallbackRows (st : Store) (startMs endMs : Int) (candTgIds : List Int) :
    List CandRow :=
  (lastPayments st.payments endMs).filterMap (fun e =>
    if e.1 ∈ candTgIds then none
    else
      let priceKey := pyRound e.2.1
      match (priceToPlan st.plans).find? (fun x => x.1 = priceKey) with
      | none => none
      | some pi =>
        let dd := pi.2.1
        let gcode := pi.2.2
        let ddEff : Int := if dd = 0 then 30 else dd
        let prevExpiry := e.2.2 + ddEff * 86400000
        if startMs ≤ prevExpiry && prevExpiry < endMs then
          some ⟨none, gcode, some dd, some (priceKey : ℚ), e.1⟩
        else none)

/-- The merged candidate cohort `cand_rows` after
`cand_rows.extend(fallback_rows)`. -/
def candRows (st : Store) (startMs endMs : Int) (fl : Flags) : List CandRow :=
  let real := realCandidates st startMs endMs fl
  real ++ fallbackRows st startMs endMs (real.map (fun r => r.tg_id))

/-- The dict returned by `_calc_retention_churn`. -/
structure RetentionBlock where
  retention_rate : Option ℚ
  churn_rate : Option ℚ
  renewed_count : Nat
  not_renewed_yet : Nat
  predicted_churn : ℚ
deriving DecidableEq

/-- Accumulator of the classification loop (db.py lines 695-712). -/
structure Tally where
  renewed : Nat
  notRenewed : Nat
  buckets : List (String × Nat)
deriving DecidableEq

/-- Python `bucket_counts[bucket] = bucket_counts.get(bucket, 0) + 1`. -/
def bumpBucket (buckets : List (String × Nat)) (b : String) : List (String × Nat) :=
  upsert buckets b 1 (fun n => n + 1)

/-- One step of the classification loop: a real candidate is renewed iff
its `expiry_ms ≥ end_ms`; a fallback candidate is renewed iff its account
paid inside the month; each non-renewed candidate bumps its bucket. -/
def classifyStep (endMs : Int) (paid : List Int) (t : Tally) (row : CandRow) : Tally :=
  match row.expiry_ms with
  | some e =>
    if endMs ≤ e then { t with renewed := t.renewed + 1 }
    else { t with notRenewed := t.notRenewed + 1,
                  buckets := bumpBucket t.buckets (bucketPlan row.gcode row.days) }
  | none =>
    if row.tg_id ∈ paid then { t with renewed := t.renewed + 1 }
    else { t with notRenewed := t.notRenewed + 1,
                  buckets := bumpBucket t.buckets (bucketPlan row.gcode row.days) }

/-- Weighted `predicted_churn = Σ (1 - p_map.get(bucket, default_p)) * cnt` with
`default_p = global_prob if global_prob is not None else 1.0`. -/
def predictedChurn (buckets : List (String × Nat)) (probs : List (String × ℚ))
    (global_prob : Option ℚ) : ℚ :=
  buckets.foldl
    (fun acc e => acc + (1 - (dlookup probs e.1).getD (global_prob.getD 1)) * (e.2 : ℚ))
    0

/-- Analyzer `_calc_retention_churn`: build the merged candidate cohort, return the
all-`None`/zero block when it is empty, otherwise classify every candidate
and derive the rates and the probability-weighted predicted churn. -/
def calcRetentionChurn (st : Store) (startMs endMs : Int) (fl : Flags)
    (probs : List (String × ℚ)) (global_prob : Option ℚ) : RetentionBlock :=
  let rows := candRows st startMs endMs fl
  if rows.length = 0 then
    { retention_rate := none
      churn_rate := none
      renewed_count := 0
      not_renewed_yet := 0
      predicted_churn := 0 }
  else
    let t := rows.foldl (classifyStep endMs (paidInMonth st startMs endMs)) ⟨0, 0, []⟩
    { retention_rate := some ((t.renewed : ℚ) / (rows.length : ℚ))
      churn_rate := some ((t.notRenewed : ℚ) / (rows.length : ℚ))
      renewed_count := t.renewed
      not_renewed_yet := t.notRenewed
      predicted_churn := predictedChurn t.buckets probs global_prob }

/-! # Lemma layer and claim theorems -/

/-! # Theorems -/

theorem floor_intCast_div_30 (d : Int) : ⌊(d:ℚ)/30⌋ = d / 30 := by
  have h := Rat.floor_intCast_div_natCast d 30
  norm_num at h
  exact h

/-- Integer characterization of `pyRound (d / 30)`, the only use of `round`
in the bucket classifier. -/
theorem pyRound_intCast_div_30 (d : Int) :
    pyRound ((d:ℚ)/30) =
      if d % 30 < 15 then d / 30
      else if 15 < d % 30 then d / 30 + 1
      else if (d / 30) % 2 = 0 then d / 30 else d / 30 + 1 := by
  have hfrac : (d:ℚ)/30 - ((d / 30 : Int):ℚ) = ((d % 30 : Int):ℚ)/30 := by
    have h0 : ((30 * (d / 30) + d % 30 : Int) : ℚ) = (d : ℚ) :=
      congrArg (Int.cast : Int → ℚ) (Int.ediv_add_emod d 30)
    push_cast at h0
    linarith
  have hlt : ∀ x : Int, ((x:ℚ)/30 < 1/2) ↔ x < 15 := by
    intro x
    rw [div_lt_div_iff₀ (by norm_num) (by norm_num)]
    norm_cast
    omega
  have hgt : ∀ x : Int, (1/2 < (x:ℚ)/30) ↔ 15 < x := by
    intro x
    rw [div_lt_div_iff₀ (by norm_num) (by norm_num)]
    norm_cast
    omega
  simp only [pyRound, floor_intCast_div_30, hfrac, hlt, hgt]

theorem pyMax_eq_max (a b : ℚ) : pyMax a b = max a b := by
  unfold pyMax
  rcases lt_or_le a b with h | h
  · rw [if_pos h, max_eq_right h.le]
  · rw [if_neg (not_lt.mpr h), max_eq_left h]

theorem pyMin_eq_min (a b : ℚ) : pyMin a b = min a b := by
  unfold pyMin
  rcases lt_or_le b a with h | h
  · rw [if_pos h, min_eq_right h.le]
  · rw [if_neg (not_lt.mpr h), min_eq_left h]

@[simp] theorem dlookup_nil {α : Type} (key : String) :
    dlookup ([] : List (String × α)) key = none := rfl

theorem dlookup_cons {α : Type} (k : String) (v : α) (rest : List (String × α))
    (key : String) :
    dlookup ((k, v) :: rest) key = if k = key then some v else dlookup rest key := rfl

theorem dlookup_mem {α : Type} :
    ∀ (l : List (String × α)) (key : String) (v : α),
      dlookup l key = some v → (key, v) ∈ l := by
  intro l
  induction l with
  | nil => intro key v h; cases h
  | cons x rest ih =>
    intro key v h
    obtain ⟨k', v'⟩ := x
    rw [dlookup_cons] at h
    by_cases hk : k' = key
    · subst hk
      rw [if_pos rfl] at h
      cases h
      exact List.mem_cons_self _ _
    · rw [if_neg hk] at h
      exact List.mem_cons_of_mem _ (ih key v h)

theorem dlookup_eq_none_iff {α : Type} :
    ∀ (l : List (String × α)) (key : String),
      dlookup l key = none ↔ key ∉ l.map Prod.fst := by
  intro l
  induction l with
  | nil => simp
  | cons x rest ih =>
    intro key
    obtain ⟨k', v'⟩ := x
    rw [dlookup_cons]
    by_cases hk : k' = key
    · subst hk; simp
    · simp [hk, ih key, Ne.symm hk]

theorem dlookup_append {α : Type} :
    ∀ (l₁ l₂ : List (String × α)) (key : String),
      dlookup (l₁ ++ l₂) key =
        match dlookup l₁ key with
        | some v => some v
        | none => dlookup l₂ key := by
  intro l₁
  induction l₁ with
  | nil => intro l₂ key; rfl
  | cons x rest ih =>
    intro l₂ key
    obtain ⟨k', v'⟩ := x
    rw [List.cons_append, dlookup_cons, dlookup_cons]
    by_cases hk : k' = key
    · rw [if_pos hk, if_pos hk]
    · rw [if_neg hk, if_neg hk, ih]

theorem dlookup_map_replace {α : Type} (k : String) (w : α) :
    ∀ (m : List (String × α)) (key : String),
      dlookup (m.map (fun x => if x.1 = k then (k, w) else x)) key =
        if k = key then (if (dlookup m k).isSome then some w else none)
        else dlookup m key := by
  intro m
  induction m with
  | nil => intro key; by_cases h : k = key <;> simp [h]
  | cons x rest ih =>
    intro key
    obtain ⟨k', v'⟩ := x
    by_cases h1 : k' = k
    · subst h1
      by_cases h2 : k' = key
      · subst h2; simp [dlookup_cons, ih]
      · simp [dlookup_cons, ih, h2]
    · by_cases h2 : k' = key
      · subst h2
        have hk : ¬ k = k' := fun h => h1 h.symm
        simp [dlookup_cons, h1, hk]
      · simp [dlookup_cons, ih, h1, h2]

theorem dlookup_upsert {α : Type} (m : List (String × α)) (k : String)
    (vNew : α) (vOld : α → α) (key : String) :
    dlookup (upsert m k vNew vOld) key =
      if k = key then
        match dlookup m k with
        | some old => some (vOld old)
        | none => some vNew
      else dlookup m key := by
  unfold upsert
  cases h : dlookup m k with
  | some old =>
    rw [dlookup_map_replace, h]
    by_cases hk : k = key <;> simp [hk]
  | none =>
    rw [dlookup_append]
    by_cases hk : k = key
    · subst hk
      rw [h, if_pos rfl, dlookup_cons, if_pos rfl]
    · rw [if_neg hk, dlookup_cons, if_neg hk, dlookup_nil]
      cases h2 : dlookup m key <;> rfl

theorem upsert_map_fst {α : Type} (m : List (String × α)) (k : String)
    (vNew : α) (vOld : α → α) :
    (upsert m k vNew vOld).map Prod.fst =
      match dlookup m k with
      | some _ => m.map Prod.fst
      | none => m.map Prod.fst ++ [k] := by
  unfold upsert
  cases h : dlookup m k with
  | some old =>
    rw [List.map_map]
    refine List.map_congr_left ?_
    intro x _
    by_cases hxk : x.1 = k
    · simp [hxk, Function.comp]
    · simp [hxk, Function.comp]
  | none => simp

theorem upsert_keys_nodup {α : Type} (m : List (String × α)) (k : String)
    (vNew : α) (vOld : α → α) (h : (m.map Prod.fst).Nodup) :
    ((upsert m k vNew vOld).map Prod.fst).Nodup := by
  rw [upsert_map_fst]
  cases hl : dlookup m k with
  | some old => exact h
  | none =>
    have hk : k ∉ m.map Prod.fst := (dlookup_eq_none_iff m k).mp hl
    simp [List.nodup_append, h, hk]

theorem foldl_upsert_keys_nodup {α β : Type}
    (key : β → String) (vNew : β → α) (vOld : β → α → α) :
    ∀ (l : List β) (acc : List (String × α)),
      (acc.map Prod.fst).Nodup →
      ((l.foldl (fun m b => upsert m (key b) (vNew b) (vOld b)) acc).map Prod.fst).Nodup := by
  intro l
  induction l with
  | nil => intro acc h; exact h
  | cons b rest ih =>
    intro acc h
    exact ih _ (upsert_keys_nodup _ _ _ _ h)

/-! ## Bucket classifier: claims C7 and C8 -/

theorem pyRound_zero : pyRound 0 = 0 := by
  norm_num [pyRound]

theorem bucketPlan_eq_specClassify (g : Option String) (d : Option Int) :
    bucketPlan g d = specClassify g d := by
  unfold bucketPlan specClassify durationBucket
  by_cases h : g = some "1m" ∨ g = some "3m" ∨ g = some "12m"
  · rw [if_pos h, if_pos h]
  · rw [if_neg h, if_neg h]
    cases d with
    | none => simp
    | some dd =>
      by_cases hdd : dd = 0
      · subst hdd
        simp [pyRound_zero]
      · simp [hdd]

/-- C7: the plan bucket classifier is a pure, total function; an explicit
`group_code` in `{1m, 3m, 12m}` is returned verbatim and short-circuits
duration inference (`classify("1m", 97) = "1m"`); otherwise
`months = round(duration_days / 30)` maps `1→1m`, `3→3m`, `10..13→12m`,
and everything else — including missing durations — to `other` without
erroring (stated as pointwise equality with the spec's classifier); the
function is deterministic. -/
theorem C7_bucket_classifier :
    (∀ (g : Option String) (d : Option Int), bucketPlan g d = specClassify g d) ∧
    bucketPlan (some "1m") (some 97) = "1m" ∧
    (∀ (g : Option String) (d : Option Int), bucketPlan g d = bucketPlan g d) :=
  ⟨bucketPlan_eq_specClassify, by decide, fun _ _ => rfl⟩

/-- C8 counterexample: the SQL `CASE` of the historical-cohort query does
not compute `_bucket_plan` — it ignores `group_code` (duration 90 days is
`3m` for the SQL but `1m` for the classifier when `group_code = "1m"`) and
coalesces a missing duration to 30 days (SQL gives `1m`, the classifier
gives `other`). -/
theorem C8_counterexample :
    sqlBucket (some 90) = "3m" ∧ bucketPlan (some "1m") (some 90) = "1m" ∧
    ¬ sqlBucket (some 90) = bucketPlan (some "1m") (some 90) ∧
    sqlBucket none = "1m" ∧ bucketPlan none none = "other" := by
  decide

/-- C8 amended: whenever `group_code` is not an explicit bucket tag and
the duration lies inside one of the SQL ranges (25–40, 80–100 or 360–390
days), the SQL `CASE` bucket and `_bucket_plan` agree; outside those
ranges, or when an explicit `group_code` tag disagrees with the duration,
the two groupings can differ. -/
theorem C8_amended (g : Option String) (d : Int)
    (hg : ¬(g = some "1m" ∨ g = some "3m" ∨ g = some "12m"))
    (hd : (25 ≤ d ∧ d ≤ 40) ∨ (80 ≤ d ∧ d ≤ 100) ∨ (360 ≤ d ∧ d ≤ 390)) :
    sqlBucket (some d) = bucketPlan g (some d) := by
  have hd0 : ¬ (d = 0) := by omega
  unfold sqlBucket bucketPlan durationBucket
  rw [if_neg hg]
  simp only [Option.getD_some, if_neg hd0]
  rcases hd with ⟨h1, h2⟩ | ⟨h1, h2⟩ | ⟨h1, h2⟩
  · have hm : pyRound ((d:ℚ)/30) = 1 := by
      rw [pyRound_intCast_div_30]; split_ifs <;> omega
    rw [hm, if_pos (⟨h1, h2⟩ : 25 ≤ d ∧ d ≤ 40)]
    norm_num
  · have hm : pyRound ((d:ℚ)/30) = 3 := by
      rw [pyRound_intCast_div_30]; split_ifs <;> omega
    have hn1 : ¬(25 ≤ d ∧ d ≤ 40) := by omega
    rw [hm, if_neg hn1, if_pos (⟨h1, h2⟩ : 80 ≤ d ∧ d ≤ 100)]
    norm_num
  · have hm : 10 ≤ pyRound ((d:ℚ)/30) ∧ pyRound ((d:ℚ)/30) ≤ 13 := by
      rw [pyRound_intCast_div_30]
      constructor <;> (split_ifs <;> omega)
    have hn1 : ¬(25 ≤ d ∧ d ≤ 40) := by omega
    have hn2 : ¬(80 ≤ d ∧ d ≤ 100) := by omega
    have hm1 : ¬(pyRound ((d:ℚ)/30) = 1) := by omega
    have hm3 : ¬(pyRound ((d:ℚ)/30) = 3) := by omega
    rw [if_neg hn1, if_neg hn2, if_pos (⟨h1, h2⟩ : 360 ≤ d ∧ d ≤ 390),
       if_neg hm1, if_neg hm3, if_pos hm]

theorem C8_witness :
    ¬((none : Option String) = some "1m" ∨ (none : Option String) = some "3m" ∨
        (none : Option String) = some "12m") ∧
    ((25 ≤ (30:Int) ∧ (30:Int) ≤ 40) ∨ (80 ≤ (30:Int) ∧ (30:Int) ≤ 100) ∨
        (360 ≤ (30:Int) ∧ (30:Int) ≤ 390)) ∧
    sqlBucket (some 30) = bucketPlan none (some 30) :=
  ⟨by decide, by decide, C8_amended none 30 (by decide) (Or.inl (by decide))⟩

/-! ## Renewal probability estimator: claim C1 -/

theorem dlookup_estimate (rows : List (String × Nat × Nat)) (key : String) :
    dlookup (estimateAutoRenewalProbs rows) key
      = (dlookup (aggregateTotals rows) key).map (fun CR => smoothProb CR.1 CR.2) := by
  unfold estimateAutoRenewalProbs
  generalize aggregateTotals rows = l
  induction l with
  | nil => rfl
  | cons x rest ih =>
    obtain ⟨k', v'⟩ := x
    by_cases hk : k' = key <;> simp [dlookup_cons, hk, ih]

theorem smoothProb_pos_cohort (C R : Nat) (hC : 0 < C) (hR : R ≤ C) :
    smoothProb C R = ((R:ℚ)+1)/((C:ℚ)+2) ∧
    0 < ((R:ℚ)+1)/((C:ℚ)+2) ∧ ((R:ℚ)+1)/((C:ℚ)+2) < 1 := by
  have hden : (0:ℚ) < (C:ℚ) + 2 := by positivity
  have hnum : (0:ℚ) < (R:ℚ) + 1 := by positivity
  have hpos : 0 < ((R:ℚ)+1)/((C:ℚ)+2) := div_pos hnum hden
  have hlt : ((R:ℚ)+1)/((C:ℚ)+2) < 1 := by
    rw [div_lt_one hden]
    have hRC : (R:ℚ) ≤ (C:ℚ) := by exact_mod_cast hR
    linarith
  refine ⟨?_, hpos, hlt⟩
  simp only [smoothProb, if_pos hC, pyMin, pyMax]
  rw [if_pos hlt, if_pos hpos]

/-- C1 counterexample: on an empty historical cohort the estimator returns
probability `1.0` for every bucket — not the claimed Laplace value `0.5` —
and the returned value is not strictly below `1`. -/
theorem C1_counterexample :
    dlookup (estimateAutoRenewalProbs []) "1m" = some 1 ∧
    (1:ℚ) ≠ 1/2 ∧ ¬((1:ℚ) < 1) := by
  refine ⟨?_, by norm_num, by norm_num⟩
  norm_num [estimateAutoRenewalProbs, aggregateTotals, initTotals, dlookup,
    smoothProb, pyMax, pyMin]

/-- C1 amended: for every aggregated cohort map and every bucket whose
aggregated cohort size satisfies `C > 0` (with `0 ≤ R ≤ C`), the estimator
returns the Laplace-smoothed `p = (R+1)/(C+2)`, which lies strictly
between 0 and 1; a bucket with an empty cohort (`C = 0`) instead yields
`p = 1.0` exactly. -/
theorem C1_amended (rows : List (String × Nat × Nat)) (b : String) (C R : Nat)
    (h : dlookup (aggregateTotals rows) b = some (C, R)) (hC : 0 < C) (hR : R ≤ C) :
    dlookup (estimateAutoRenewalProbs rows) b = some (((R:ℚ)+1)/((C:ℚ)+2)) ∧
    0 < (((R:ℚ)+1)/((C:ℚ)+2)) ∧ (((R:ℚ)+1)/((C:ℚ)+2)) < 1 := by
  obtain ⟨hval, hpos, hlt⟩ := smoothProb_pos_cohort C R hC hR
  refine ⟨?_, hpos, hlt⟩
  rw [dlookup_estimate, h]
  simp [hval]

theorem C1_witness :
    dlookup (estimateAutoRenewalProbs [("1m", 10, 4)]) "1m"
        = some ((((4:Nat):ℚ)+1)/(((10:Nat):ℚ)+2)) ∧
    0 < ((((4:Nat):ℚ)+1)/(((10:Nat):ℚ)+2)) ∧
    ((((4:Nat):ℚ)+1)/(((10:Nat):ℚ)+2)) < 1 :=
  C1_amended [("1m", 10, 4)] "1m" 10 4 (by decide) (by decide) (by decide)

/-! ## Forecast compositor and router figures: claims C5, C6, C10 -/

/-- The forecast accumulator equals the sum of per-plan expected revenue
values, each computed with the resolved probability. -/
theorem computeForecast_forecast_eq_sum (expiring : List (String × PlanInfo))
    (rcv : Received) (probs : List (String × ℚ)) (gp : Option ℚ) :
    (computeForecast expiring rcv probs gp).forecast
      = (expiring.map (fun x => x.2.price * (x.2.count : ℚ) *
          resolveProb probs gp x.1 x.2.group_code x.2.bucket)).sum := by
  unfold computeForecast
  have haux : ∀ (xs : List (String × PlanInfo)) (a : ℚ)
      (l : List (String × ForecastEntry)),
      (xs.foldl
        (fun (acc : ℚ × List (String × ForecastEntry)) x =>
          let prob := resolveProb probs gp x.1 x.2.group_code x.2.bucket
          let expected := x.2.price * (x.2.count : ℚ) * prob
          (acc.1 + expected, acc.2 ++ [(x.1, ⟨x.2, expected, prob⟩)])) (a, l)).1
        = a + (xs.map (fun x => x.2.price * (x.2.count : ℚ) *
            resolveProb probs gp x.1 x.2.group_code x.2.bucket)).sum := by
    intro xs
    induction xs with
    | nil => intro a l; simp
    | cons x rest ih => intro a l; simp [ih, add_assoc]
  simpa using haux expiring 0 []

theorem pyOrQ_nonneg (a : Option ℚ) (b : ℚ)
    (ha : ∀ x, a = some x → 0 ≤ x) (hb : 0 ≤ b) : 0 ≤ pyOrQ a b := by
  cases a with
  | none => simpa [pyOrQ] using hb
  | some x =>
    simp only [pyOrQ]
    by_cases hx : x = 0
    · rw [if_pos hx]; exact hb
    · rw [if_neg hx]; exact ha x rfl

theorem resolveProb_nonneg (probs : List (String × ℚ)) (gp : Option ℚ)
    (hprobs : ∀ e ∈ probs, 0 ≤ e.2) (hgp : ∀ q, gp = some q → 0 ≤ q)
    (code : String) (g : Option String) (b : String) :
    0 ≤ resolveProb probs gp code g b := by
  unfold resolveProb
  apply pyOrQ_nonneg
  · intro x hx
    exact hprobs _ (dlookup_mem _ _ _ hx)
  apply pyOrQ_nonneg
  · intro x hx
    cases g with
    | none => cases hx
    | some s => exact hprobs _ (dlookup_mem _ _ _ hx)
  apply pyOrQ_nonneg
  · intro x hx
    exact hprobs _ (dlookup_mem _ _ _ hx)
  · cases gp with
    | none => norm_num
    | some q => exact hgp q rfl

theorem computeForecast_forecast_nonneg (expiring : List (String × PlanInfo))
    (rcv : Received) (probs : List (String × ℚ)) (gp : Option ℚ)
    (hprice : ∀ x ∈ expiring, 0 ≤ (Prod.snd x).price)
    (hprobs : ∀ e ∈ probs, 0 ≤ e.2) (hgp : ∀ q, gp = some q → 0 ≤ q) :
    0 ≤ (computeForecast expiring rcv probs gp).forecast := by
  rw [computeForecast_forecast_eq_sum]
  apply List.sum_nonneg
  intro q hq
  rw [List.mem_map] at hq
  obtain ⟨x, hx, rfl⟩ := hq
  have h1 : 0 ≤ x.2.price := hprice x hx
  have h2 : (0:ℚ) ≤ (x.2.count : ℚ) := by positivity
  have h3 : 0 ≤ resolveProb probs gp x.1 x.2.group_code x.2.bucket :=
    resolveProb_nonneg probs gp hprobs hgp _ _ _
  exact mul_nonneg (mul_nonneg h1 h2) h3

/-- C5: for valid inputs (non-negative prices, counts, received amounts
and probabilities in `[0,1]`) the forecast result satisfies
`to_earn = max(0, forecast − received)`, hence `to_earn ≥ 0` even when
`received > forecast`, and the rendered `plan_gap` figure is non-negative
in every completion mode, including a zero plan baseline. -/
theorem C5_to_earn_plan_gap_nonneg (expiring : List (String × PlanInfo))
    (rcv : Received) (probs : List (String × ℚ)) (gp : Option ℚ)
    (hprice : ∀ x ∈ expiring, 0 ≤ (Prod.snd x).price)
    (hprobs : ∀ e ∈ probs, 0 ≤ e.2 ∧ e.2 ≤ 1)
    (hgp : ∀ q, gp = some q → 0 ≤ q ∧ q ≤ 1)
    (hrcv : 0 ≤ rcv.net) :
    (computeForecast expiring rcv probs gp).to_earn
        = max 0 ((computeForecast expiring rcv probs gp).forecast - rcv.net) ∧
    0 ≤ (computeForecast expiring rcv probs gp).to_earn ∧
    ∀ (mode : String) (planSum recognized : ℚ),
      0 ≤ planGapFigure mode planSum
            (computeForecast expiring rcv probs gp).forecast rcv.net recognized := by
  have hfore : 0 ≤ (computeForecast expiring rcv probs gp).forecast :=
    computeForecast_forecast_nonneg expiring rcv probs gp hprice
      (fun e he => (hprobs e he).1) (fun q hq => (hgp q hq).1)
  have hto : (computeForecast expiring rcv probs gp).to_earn
      = pyMax 0 ((computeForecast expiring rcv probs gp).forecast - rcv.net) := rfl
  refine ⟨?_, ?_, ?_⟩
  · rw [hto, pyMax_eq_max]
  · rw [hto, pyMax_eq_max]
    exact le_max_left _ _
  · intro mode planSum recognized
    unfold planGapFigure
    split_ifs
    · exact hfore
    · rw [pyMax_eq_max]; exact le_max_left _ _
    · rw [pyMax_eq_max]; exact le_max_left _ _
    · exact le_refl 0

theorem C5_witness :
    (∀ x ∈ [("A", PlanInfo.mk 2 10 none none "1m")], 0 ≤ (Prod.snd x).price) ∧
    (∀ e ∈ [("1m", (1:ℚ)/2)], 0 ≤ e.2 ∧ e.2 ≤ 1) ∧
    (0:ℚ) ≤ (Received.mk 50 0 50).net ∧
    ((computeForecast [("A", PlanInfo.mk 2 10 none none "1m")] (Received.mk 50 0 50)
        [("1m", (1:ℚ)/2)] none).to_earn
      = max 0 ((computeForecast [("A", PlanInfo.mk 2 10 none none "1m")]
          (Received.mk 50 0 50) [("1m", (1:ℚ)/2)] none).forecast
          - (Received.mk 50 0 50).net) ∧
     0 ≤ (computeForecast [("A", PlanInfo.mk 2 10 none none "1m")] (Received.mk 50 0 50)
        [("1m", (1:ℚ)/2)] none).to_earn ∧
     ∀ (mode : String) (planSum recognized : ℚ),
       0 ≤ planGapFigure mode planSum
             (computeForecast [("A", PlanInfo.mk 2 10 none none "1m")]
               (Received.mk 50 0 50) [("1m", (1:ℚ)/2)] none).forecast
             (Received.mk 50 0 50).net recognized) :=
  ⟨by intro x hx; rw [List.mem_singleton] at hx; subst hx; norm_num,
   by intro e he; rw [List.mem_singleton] at he; subst he; norm_num,
   by norm_num,
   C5_to_earn_plan_gap_nonneg [("A", PlanInfo.mk 2 10 none none "1m")]
     (Received.mk 50 0 50) [("1m", (1:ℚ)/2)] none
     (by intro x hx; rw [List.mem_singleton] at hx; subst hx; norm_num)
     (by intro e he; rw [List.mem_singleton] at he; subst he; norm_num)
     (by intro q hq; cases hq)
     (by norm_num)⟩

/-- C6 counterexample: a plan-name override of exactly `0.0` does not take
precedence — Python's `or` treats `0.0` as falsy, so the resolution falls
through to the bucket override and the plan contributes
`10 × 1 × 0.5 = 5`, not the `0` the claim requires. -/
theorem C6_counterexample :
    (computeForecast [("A", PlanInfo.mk 1 10 none none "1m")] (Received.mk 0 0 0)
        [("A", 0), ("1m", (1:ℚ)/2)] none).forecast = 5 ∧
    resolveProb [("A", 0), ("1m", (1:ℚ)/2)] none "A" none "1m" = 1/2 ∧
    dlookup [("A", (0:ℚ)), ("1m", (1:ℚ)/2)] "A" = some 0 ∧
    ((5:ℚ) ≠ 0 ∧ ((1:ℚ)/2) ≠ 0) := by
  have hA : ¬ ("A" : String) = "1m" := by decide
  refine ⟨?_, ?_, ?_, by norm_num⟩
  · norm_num [computeForecast, resolveProb, pyOrQ, dlookup, hA]
  · norm_num [resolveProb, pyOrQ, dlookup, hA]
  · norm_num [dlookup]

/-- C6 amended: the probability is resolved by the chain
name-override, `group_code`-override, bucket-override, global
probability, else `1.0`, but an override whose value is exactly `0` is
skipped (Python `or` falsiness), so only a non-zero existing override
takes precedence; per-plan expected revenue is
`price × count × probability` and the forecast is their sum. -/
theorem C6_probability_resolution (expiring : List (String × PlanInfo))
    (rcv : Received) (probs : List (String × ℚ)) (gp : Option ℚ)
    (code : String) (g : Option String) (b : String) (v : ℚ)
    (hv : dlookup probs code = some v) (hnz : v ≠ 0) :
    (computeForecast expiring rcv probs gp).forecast
      = (expiring.map (fun x => x.2.price * (x.2.count : ℚ) *
          resolveProb probs gp x.1 x.2.group_code x.2.bucket)).sum ∧
    resolveProb probs gp code g b = v := by
  refine ⟨computeForecast_forecast_eq_sum expiring rcv probs gp, ?_⟩
  unfold resolveProb
  rw [hv]
  simp only [pyOrQ]
  rw [if_neg hnz]

theorem C6_witness :
    dlookup [("A", (3:ℚ)/4)] "A" = some (3/4) ∧ ((3:ℚ)/4) ≠ 0 ∧
    ((computeForecast [("A", PlanInfo.mk 2 10 none none "1m")] (Received.mk 0 0 0)
        [("A", (3:ℚ)/4)] none).forecast
      = ([("A", PlanInfo.mk 2 10 none none "1m")].map
          (fun x => x.2.price * (x.2.count : ℚ) *
            resolveProb [("A", (3:ℚ)/4)] none x.1 x.2.group_code x.2.bucket)).sum ∧
     resolveProb [("A", (3:ℚ)/4)] none "A" none "1m" = 3/4) :=
  ⟨by norm_num [dlookup], by norm_num,
   C6_probability_resolution [("A", PlanInfo.mk 2 10 none none "1m")]
     (Received.mk 0 0 0) [("A", (3:ℚ)/4)] none "A" none "1m" (3/4)
     (by norm_num [dlookup]) (by norm_num)⟩

/-- C10: in `plan_vs_forecast` mode with a positive plan baseline the
completion percentage is clamped into `[0, 100]` — in particular it is `0`
whenever the live forecast exceeds the baseline — and `plan_gap` equals
the live forecast. -/
theorem C10_plan_vs_forecast (planSum forecast received recognized : ℚ)
    (h : 0 < planSum) :
    (∃ q, planCompletionPct "plan_vs_forecast" planSum forecast received recognized
        = some q ∧ 0 ≤ q ∧ q ≤ 100 ∧ (planSum < forecast → q = 0)) ∧
    planGapFigure "plan_vs_forecast" planSum forecast received recognized
      = forecast := by
  unfold planCompletionPct planGapFigure
  rw [if_pos h, if_pos h, if_pos rfl, if_pos rfl]
  refine ⟨⟨_, rfl, ?_, ?_, ?_⟩, rfl⟩
  · rw [pyMax_eq_max]
    exact le_max_left _ _
  · rw [pyMax_eq_max, pyMin_eq_min]
    exact max_le (by norm_num) (min_le_left _ _)
  · intro hf
    have hneg : (planSum - forecast) / planSum * 100 < 0 := by
      apply mul_neg_of_neg_of_pos _ (by norm_num)
      exact div_neg_of_neg_of_pos (by linarith) h
    rw [pyMax_eq_max, pyMin_eq_min, min_eq_right (by linarith), max_eq_left (by linarith)]

theorem C10_witness :
    (0:ℚ) < 10 ∧
    ((∃ q, planCompletionPct "plan_vs_forecast" 10 20 0 0 = some q ∧
        0 ≤ q ∧ q ≤ 100 ∧ ((10:ℚ) < 20 → q = 0)) ∧
     planGapFigure "plan_vs_forecast" 10 20 0 0 = 20) :=
  ⟨by norm_num, C10_plan_vs_forecast 10 20 0 0 (by norm_num)⟩

/-! ## Retention/churn analyzer: claims C2, C3, C4 -/

/-- Every step of the classification loop marks the candidate as exactly
one of renewed / not-renewed, so the two tallies always sum to the number
of processed rows. -/
theorem classify_total (endMs : Int) (paid : List Int) :
    ∀ (rows : List CandRow) (t : Tally),
      (rows.foldl (classifyStep endMs paid) t).renewed
        + (rows.foldl (classifyStep endMs paid) t).notRenewed
        = t.renewed + t.notRenewed + rows.length := by
  intro rows
  induction rows with
  | nil => intro t; simp
  | cons r rest ih =>
    intro t
    rw [List.foldl_cons, List.length_cons, ih]
    unfold classifyStep
    cases r.expiry_ms with
    | none =>
      by_cases hp : r.tg_id ∈ paid
      · simp [hp]; omega
      · simp [hp]; omega
    | some ex =>
      by_cases he : endMs ≤ ex
      · simp [he]; omega
      · simp [he]; omega

/-- C3: for every non-empty current-month candidate cohort, the retention
report satisfies `renewed_count + not_renewed_yet = total_candidates`,
`retention_rate = renewed_count / total_candidates`,
`churn_rate = not_renewed_yet / total_candidates`, and the two rates sum
to exactly 1. -/
theorem C3_conservation (st : Store) (s e : Int) (fl : Flags)
    (probs : List (String × ℚ)) (gp : Option ℚ)
    (h : candRows st s e fl ≠ []) :
    (calcRetentionChurn st s e fl probs gp).renewed_count
        + (calcRetentionChurn st s e fl probs gp).not_renewed_yet
      = (candRows st s e fl).length ∧
    (calcRetentionChurn st s e fl probs gp).retention_rate
      = some (((calcRetentionChurn st s e fl probs gp).renewed_count : ℚ)
          / ((candRows st s e fl).length : ℚ)) ∧
    (calcRetentionChurn st s e fl probs gp).churn_rate
      = some (((calcRetentionChurn st s e fl probs gp).not_renewed_yet : ℚ)
          / ((candRows st s e fl).length : ℚ)) ∧
    ∃ rr cr, (calcRetentionChurn st s e fl probs gp).retention_rate = some rr ∧
      (calcRetentionChurn st s e fl probs gp).churn_rate = some cr ∧ rr + cr = 1 := by
  have hlen : ¬ ((candRows st s e fl).length = 0) := by
    intro h0
    exact h (List.length_eq_zero.mp h0)
  have htot := classify_total e (paidInMonth st s e) (candRows st s e fl) ⟨0, 0, []⟩
  simp only [Nat.zero_add] at htot
  unfold calcRetentionChurn
  rw [if_neg hlen]
  refine ⟨by simpa using htot, rfl, rfl, ?_⟩
  refine ⟨_, _, rfl, rfl, ?_⟩
  rw [div_add_div_same]
  have hcast : (((candRows st s e fl).foldl
        (classifyStep e (paidInMonth st s e)) ⟨0, 0, []⟩).renewed : ℚ)
      + (((candRows st s e fl).foldl
        (classifyStep e (paidInMonth st s e)) ⟨0, 0, []⟩).notRenewed : ℚ)
      = ((candRows st s e fl).length : ℚ) := by
    exact_mod_cast congrArg (Nat.cast : Nat → ℚ) (by simpa using htot)
  rw [hcast]
  exact div_self (by exact_mod_cast hlen)

theorem C3_witness :
    candRows (Store.mk [Plan.mk 1 "A" none (some 100) (some 0)]
        [Key.mk 7 1 5 false 0] []) 0 10 (Flags.mk false false) ≠ [] ∧
    ((calcRetentionChurn (Store.mk [Plan.mk 1 "A" none (some 100) (some 0)]
          [Key.mk 7 1 5 false 0] []) 0 10 (Flags.mk false false) [] none).renewed_count
        + (calcRetentionChurn (Store.mk [Plan.mk 1 "A" none (some 100) (some 0)]
          [Key.mk 7 1 5 false 0] []) 0 10 (Flags.mk false false) [] none).not_renewed_yet
      = (candRows (Store.mk [Plan.mk 1 "A" none (some 100) (some 0)]
          [Key.mk 7 1 5 false 0] []) 0 10 (Flags.mk false false)).length ∧
     (calcRetentionChurn (Store.mk [Plan.mk 1 "A" none (some 100) (some 0)]
          [Key.mk 7 1 5 false 0] []) 0 10 (Flags.mk false false) [] none).retention_rate
      = some (((calcRetentionChurn (Store.mk [Plan.mk 1 "A" none (some 100) (some 0)]
          [Key.mk 7 1 5 false 0] []) 0 10 (Flags.mk false false) [] none).renewed_count : ℚ)
          / ((candRows (Store.mk [Plan.mk 1 "A" none (some 100) (some 0)]
          [Key.mk 7 1 5 false 0] []) 0 10 (Flags.mk false false)).length : ℚ)) ∧
     (calcRetentionChurn (Store.mk [Plan.mk 1 "A" none (some 100) (some 0)]
          [Key.mk 7 1 5 false 0] []) 0 10 (Flags.mk false false) [] none).churn_rate
      = some (((calcRetentionChurn (Store.mk [Plan.mk 1 "A" none (some 100) (some 0)]
          [Key.mk 7 1 5 false 0] []) 0 10 (Flags.mk false false) [] none).not_renewed_yet : ℚ)
          / ((candRows (Store.mk [Plan.mk 1 "A" none (some 100) (some 0)]
          [Key.mk 7 1 5 false 0] []) 0 10 (Flags.mk false false)).length : ℚ)) ∧
     ∃ rr cr, (calcRetentionChurn (Store.mk [Plan.mk 1 "A" none (some 100) (some 0)]
          [Key.mk 7 1 5 false 0] []) 0 10 (Flags.mk false false) [] none).retention_rate
        = some rr ∧
       (calcRetentionChurn (Store.mk [Plan.mk 1 "A" none (some 100) (some 0)]
          [Key.mk 7 1 5 false 0] []) 0 10 (Flags.mk false false) [] none).churn_rate
        = some cr ∧ rr + cr = 1) :=
  ⟨by decide,
   C3_conservation (Store.mk [Plan.mk 1 "A" none (some 100) (some 0)]
     [Key.mk 7 1 5 false 0] []) 0 10 (Flags.mk false false) [] none (by decide)⟩

/-- C4: an empty candidate cohort yields the explicit unknown markers —
`retention_rate` and `churn_rate` are `None` (never `0`), both counts are
`0`, and `predicted_churn` is exactly `0`. -/
theorem C4_empty_cohort (st : Store) (s e : Int) (fl : Flags)
    (probs : List (String × ℚ)) (gp : Option ℚ)
    (h : candRows st s e fl = []) :
    calcRetentionChurn st s e fl probs gp =
      { retention_rate := none, churn_rate := none, renewed_count := 0,
        not_renewed_yet := 0, predicted_churn := 0 } := by
  unfold calcRetentionChurn
  rw [h]
  rfl

theorem C4_witness :
    candRows (Store.mk [] [] []) 0 10 (Flags.mk false false) = [] ∧
    calcRetentionChurn (Store.mk [] [] []) 0 10 (Flags.mk false false) [] none =
      { retention_rate := none, churn_rate := none, renewed_count := 0,
        not_renewed_yet := 0, predicted_churn := 0 } :=
  ⟨by decide, C4_empty_cohort (Store.mk [] [] []) 0 10 (Flags.mk false false) [] none
    (by decide)⟩

/-- The per-account ranking of `last_payments_ranked` keeps at most one
row per `tg_id`: the fold keys stay pairwise distinct. -/
theorem lastPayments_keys_nodup (payments : List Payment) (endMs : Int) :
    ((lastPayments payments endMs).map Prod.fst).Nodup := by
  unfold lastPayments
  generalize payments.filter (fun p => p.created_at < endMs && p.status = "success") = elig
  have haux : ∀ (ps : List Payment) (m : List (Int × ℚ × Int)),
      (m.map Prod.fst).Nodup →
      ((ps.foldl
        (fun (m : List (Int × ℚ × Int)) p =>
          match m.find? (fun e => e.1 = p.tg_id) with
          | none => m ++ [(p.tg_id, p.amount, p.created_at)]
          | some e =>
            if e.2.2 < p.created_at then
              m.map (fun x => if x.1 = p.tg_id then (p.tg_id, p.amount, p.created_at) else x)
            else m) m).map Prod.fst).Nodup := by
    intro ps
    induction ps with
    | nil => intro m hm; exact hm
    | cons p rest ih =>
      intro m hm
      rw [List.foldl_cons]
      apply ih
      cases hf : m.find? (fun e => e.1 = p.tg_id) with
      | none =>
        have hnot : p.tg_id ∉ m.map Prod.fst := by
          intro hmem
          rw [List.mem_map] at hmem
          obtain ⟨x, hx, hfst⟩ := hmem
          have := List.find?_eq_none.mp hf x hx
          simp [hfst] at this
        simp [List.nodup_append, hm, hnot]
      | some e =>
        dsimp only
        by_cases ht : e.2.2 < p.created_at
        · rw [if_pos ht]
          have hkeys : (m.map (fun x =>
              if x.1 = p.tg_id then (p.tg_id, p.amount, p.created_at) else x)).map Prod.fst
              = m.map Prod.fst := by
            rw [List.map_map]
            refine List.map_congr_left ?_
            intro x _
            by_cases hx : x.1 = p.tg_id
            · simp [hx, Function.comp]
            · simp [hx, Function.comp]
          rw [hkeys]
          exact hm
        · rw [if_neg ht]
          exact hm
  exact haux elig [] (by simp)

/-- Mapping a projection over a `filterMap` that preserves that projection
yields a sublist of the projection of the input. -/
theorem map_filterMap_sublist {α β γ : Type} (f : α → Option β) (g : β → γ) (h : α → γ)
    (hfg : ∀ a b, f a = some b → g b = h a) :
    ∀ l : List α, ((l.filterMap f).map g).Sublist (l.map h) := by
  intro l
  induction l with
  | nil => simp
  | cons a rest ih =>
    rw [List.filterMap_cons, List.map_cons]
    cases hfa : f a with
    | none => exact ih.cons (h a)
    | some b =>
      rw [List.map_cons, hfg a b hfa]
      exact ih.cons₂ (h a)

/-- Every fallback row's account comes from the per-account last-payment
list after the explicit dedup guard, so it is not among the supplied
candidate accounts. -/
theorem fallbackRows_not_mem (st : Store) (s e : Int) (candTgIds : List Int) :
    ∀ r ∈ fallbackRows st s e candTgIds, r.tg_id ∉ candTgIds := by
  intro r hr
  unfold fallbackRows at hr
  rw [List.mem_filterMap] at hr
  obtain ⟨a, _, ha⟩ := hr
  by_cases hmem : a.1 ∈ candTgIds
  · rw [if_pos hmem] at ha
    cases ha
  · rw [if_neg hmem] at ha
    dsimp only at ha
    cases hfind : (priceToPlan st.plans).find? (fun x => x.1 = pyRound a.2.1) with
    | none => rw [hfind] at ha; cases ha
    | some pi =>
      rw [hfind] at ha
      dsimp only at ha
      by_cases hwin : (s ≤ a.2.2 + (if pi.2.1 = 0 then 30 else pi.2.1) * 86400000
          && a.2.2 + (if pi.2.1 = 0 then 30 else pi.2.1) * 86400000 < e) = true
      · rw [if_pos hwin] at ha
        cases ha
        exact hmem
      · rw [if_neg hwin] at ha
        cases ha

/-- The projection that extracts the account of a fallback row agrees with
the account of its generating last-payment entry. -/
theorem fallbackRows_tg_sublist (st : Store) (s e : Int) (candTgIds : List Int) :
    ((fallbackRows st s e candTgIds).map (fun r => r.tg_id)).Sublist
      ((lastPayments st.payments e).map Prod.fst) := by
  unfold fallbackRows
  apply map_filterMap_sublist
  intro a r ha
  by_cases hmem : a.1 ∈ candTgIds
  · rw [if_pos hmem] at ha
    cases ha
  · rw [if_neg hmem] at ha
    dsimp only at ha
    cases hfind : (priceToPlan st.plans).find? (fun x => x.1 = pyRound a.2.1) with
    | none => rw [hfind] at ha; cases ha
    | some pi =>
      rw [hfind] at ha
      dsimp only at ha
      by_cases hwin : (s ≤ a.2.2 + (if pi.2.1 = 0 then 30 else pi.2.1) * 86400000
          && a.2.2 + (if pi.2.1 = 0 then 30 else pi.2.1) * 86400000 < e) = true
      · rw [if_pos hwin] at ha
        cases ha
        rfl
      · rw [if_neg hwin] at ha
        cases ha

/-- C2 amended: the fallback reconstruction never re-admits an account
that already has a real-subscription candidate, and produces each account
at most once — but an account holding several real subscriptions whose
previous cycles all ended inside the window does occur once per
subscription in the merged cohort, so full per-account uniqueness holds
only across the two paths, not within the real-subscription path. -/
theorem C2_dedup_across_paths (st : Store) (s e : Int) (fl : Flags) :
    (∀ r ∈ fallbackRows st s e ((realCandidates st s e fl).map (fun c => c.tg_id)),
        r.tg_id ∉ (realCandidates st s e fl).map (fun c => c.tg_id)) ∧
    ((fallbackRows st s e ((realCandidates st s e fl).map (fun c => c.tg_id))).map
        (fun r => r.tg_id)).Nodup :=
  ⟨fallbackRows_not_mem st s e _,
   ((fallbackRows_tg_sublist st s e _).nodup (lastPayments_keys_nodup st.payments e))⟩

/-- C2 counterexample: one account holding two real subscriptions whose
previous cycles both end inside the window appears twice in the merged
candidate cohort, so "no account identifier appears twice" fails as
stated. -/
theorem C2_counterexample :
    ((candRows (Store.mk [Plan.mk 1 "A" none (some 100) (some 0)]
        [Key.mk 7 1 5 false 0, Key.mk 7 1 6 false 0] []) 0 10
        (Flags.mk false false)).map (fun r => r.tg_id)) = [7, 7] ∧
    ¬ (((candRows (Store.mk [Plan.mk 1 "A" none (some 100) (some 0)]
        [Key.mk 7 1 5 false 0, Key.mk 7 1 6 false 0] []) 0 10
        (Flags.mk false false)).map (fun r => r.tg_id)).Nodup) := by
  constructor
  · decide
  · intro hn
    rw [show ((candRows (Store.mk [Plan.mk 1 "A" none (some 100) (some 0)]
        [Key.mk 7 1 5 false 0, Key.mk 7 1 6 false 0] []) 0 10
        (Flags.mk false false)).map (fun r => r.tg_id)) = [7, 7] from by decide] at hn
    simp at hn

/-! ## Baseline merge: claim C9 -/

theorem getExpiringByPlan_keys_nodup (st : Store) (s e : Int) (fl : Flags) :
    ((getExpiringByPlan st s e fl).map Prod.fst).Nodup := by
  unfold getExpiringByPlan dictSet
  exact foldl_upsert_keys_nodup (fun (r : PlanRow) => r.name)
    (fun (r : PlanRow) => infoOfRow r.group_code r.cnt r.price r.duration)
    (fun (r : PlanRow) _ => infoOfRow r.group_code r.cnt r.price r.duration)
    _ [] (by simp)

theorem prevSnapshot_keys_nodup (st : Store) (s e : Int) (fl : Flags) :
    ((prevSnapshot st s e fl).map Prod.fst).Nodup := by
  unfold prevSnapshot
  exact foldl_upsert_keys_nodup (fun (r : PlanRow) => r.name)
    (fun (r : PlanRow) => infoOfRow r.group_code r.cnt r.price r.duration)
    (fun (r : PlanRow) (old : PlanInfo) =>
      let price := r.price.getD 0
      { old with
        count := old.count + r.cnt,
        price := if price ≠ 0 ∧ price ≠ old.price then price else old.price })
    _ [] (by simp)

/-- Lookup characterization of the final value merge: per plan name, the
merged entry adds the counts of the two sources and takes the second
source's price when it is non-zero ("truthy"). -/
theorem dlookup_mergeInto :
    ∀ (src acc : List (String × PlanInfo)) (key : String),
      (src.map Prod.fst).Nodup →
      dlookup (mergeInto acc src) key =
        match dlookup acc key, dlookup src key with
        | some old, some i =>
            some { old with
                   count := old.count + i.count,
                   price := if i.price ≠ 0 then i.price else old.price }
        | some old, none => some old
        | none, some i => some i
        | none, none => none := by
  intro src
  induction src with
  | nil =>
    intro acc key _
    cases h : dlookup acc key <;> simp [mergeInto, h]
  | cons x rest ih =>
    intro acc key hnd
    obtain ⟨k0, i0⟩ := x
    rw [List.map_cons, List.nodup_cons] at hnd
    obtain ⟨hx, hrest⟩ := hnd
    rw [show mergeInto acc ((k0, i0) :: rest)
        = mergeInto (upsert acc k0 i0
            (fun old => { old with
              count := old.count + i0.count,
              price := if i0.price ≠ 0 then i0.price else old.price })) rest from rfl]
    rw [ih _ key hrest, dlookup_upsert]
    by_cases hk : k0 = key
    · subst hk
      have hnone : dlookup rest k0 = none := (dlookup_eq_none_iff rest k0).mpr hx
      rw [hnone, dlookup_cons, if_pos rfl]
      cases hacc : dlookup acc k0 <;> simp
    · rw [if_neg hk, dlookup_cons, if_neg hk]

/-- C9: the month-start baseline is the value merge of the current-month
expiring snapshot and the implied-previous-cycle snapshot — for a plan
name present in both, the merged count is the sum of the two counts and
the merged price comes from whichever source carries a truthy price (the
previous-cycle snapshot's, unless it is 0, i.e. SQL NULL). -/
theorem C9_baseline_merge (st : Store) (s e : Int) (fl : Flags) (name : String)
    (ic ip : PlanInfo)
    (hc : dlookup (getExpiringByPlan st s e fl) name = some ic)
    (hp : dlookup (prevSnapshot st s e fl) name = some ip) :
    dlookup (getBaselineExpiringByPlan st s e fl) name =
      some { ic with
             count := ic.count + ip.count,
             price := if ip.price ≠ 0 then ip.price else ic.price } := by
  unfold getBaselineExpiringByPlan
  rw [dlookup_mergeInto _ _ _ (prevSnapshot_keys_nodup st s e fl), hp,
    dlookup_mergeInto _ _ _ (getExpiringByPlan_keys_nodup st s e fl), hc]
  simp

theorem C9_witness :
    dlookup (getExpiringByPlan (Store.mk [Plan.mk 1 "A" none (some 100) (some 0)]
        [Key.mk 1 1 5 false 0, Key.mk 2 1 6 false 0, Key.mk 3 1 7 false 0,
         Key.mk 4 1 8 false 0, Key.mk 5 1 9 false 0] []) 0 100 (Flags.mk false false)) "A"
      = some (PlanInfo.mk 5 100 none none "other") ∧
    dlookup (prevSnapshot (Store.mk [Plan.mk 1 "A" none (some 100) (some 0)]
        [Key.mk 1 1 5 false 0, Key.mk 2 1 6 false 0, Key.mk 3 1 7 false 0,
         Key.mk 4 1 8 false 0, Key.mk 5 1 9 false 0] []) 0 100 (Flags.mk false false)) "A"
      = some (PlanInfo.mk 5 100 none none "other") ∧
    dlookup (getBaselineExpiringByPlan (Store.mk [Plan.mk 1 "A" none (some 100) (some 0)]
        [Key.mk 1 1 5 false 0, Key.mk 2 1 6 false 0, Key.mk 3 1 7 false 0,
         Key.mk 4 1 8 false 0, Key.mk 5 1 9 false 0] []) 0 100 (Flags.mk false false)) "A"
      = some (PlanInfo.mk 10 100 none none "other") := by
  have hc : dlookup (getExpiringByPlan (Store.mk [Plan.mk 1 "A" none (some 100) (some 0)]
      [Key.mk 1 1 5 false 0, Key.mk 2 1 6 false 0, Key.mk 3 1 7 false 0,
       Key.mk 4 1 8 false 0, Key.mk 5 1 9 false 0] []) 0 100 (Flags.mk false false)) "A"
      = some (PlanInfo.mk 5 100 none none "other") := by decide
  have hp : dlookup (prevSnapshot (Store.mk [Plan.mk 1 "A" none (some 100) (some 0)]
      [Key.mk 1 1 5 false 0, Key.mk 2 1 6 false 0, Key.mk 3 1 7 false 0,
       Key.mk 4 1 8 false 0, Key.mk 5 1 9 false 0] []) 0 100 (Flags.mk false false)) "A"
      = some (PlanInfo.mk 5 100 none none "other") := by decide
  refine ⟨hc, hp, ?_⟩
  rw [C9_baseline_merge _ 0 100 _ "A" _ _ hc hp]
  norm_num

end RevenueForecast
